import Mathlib

/-!
Shallow embedding of the Stripe→SevDesk webhook connector (`src/index.ts`).

External effects (secret retrieval, Stripe API reads/writes, SevDesk API
calls) are modelled by an environment `Env` supplying every response, and
each handler returns the ordered list of external calls it performed
together with its settled outcome (`Except` models promise
rejection / thrown errors).

JavaScript property access on objects that may lack a key is modelled by
`JVal` (`undef` for a missing property, `null`, or a string), so that the
source's strict comparisons against `null` keep their exact semantics.
-/

namespace Stripe2SevDesk

/-- A JavaScript value as read from a possibly-missing string property:
`undef` models an absent key, `null` an explicit null, `str` a string. -/
inductive JVal where
  | undef
  | null
  | str (s : String)
deriving DecidableEq, Inhabited, Repr

/-- Template-literal stringification, as in `` `/Contact/${customerId}` ``. -/
def JVal.interp : JVal → String
  | .undef => "undefined"
  | .null => "null"
  | .str s => s

/-- The only metadata key the program reads; `sevdesk_id` is `undef` when
the key is absent from the metadata object. -/
structure Metadata where
  sevdesk_id : JVal
deriving DecidableEq, Inhabited, Repr

structure TaxId where
  type : String
  value : String
deriving DecidableEq, Inhabited, Repr

/-- `customer.tax_ids` is an API list; the code reads `.data`. -/
structure TaxIdList where
  data : List TaxId
deriving DecidableEq, Inhabited, Repr

/-- A Stripe customer as the handlers read it.  `metadata = none` models a
null metadata field; `tax_ids = none` models an undefined `tax_ids`. -/
structure Customer where
  id : String
  name : Option String
  tax_exempt : Option String
  tax_ids : Option TaxIdList
  metadata : Option Metadata
deriving DecidableEq, Inhabited, Repr

/-- One entry of `line.tax_amounts`; `tax_rate` is stored already
stringified, as the code applies `String(...)` before use. -/
structure TaxAmount where
  tax_rate : String
deriving DecidableEq, Inhabited, Repr

/-- A Stripe invoice line item; `tax_amounts = none` models a
null/undefined `tax_amounts` field. -/
structure Line where
  quantity : Option Int
  amount : Int
  description : Option String
  tax_amounts : Option (List TaxAmount)
deriving DecidableEq, Inhabited, Repr

/-- A Stripe invoice as the handlers read it; `customer` is stored already
stringified (`String(invoice.customer)`). -/
structure Invoice where
  id : String
  number : Option String
  created : Int
  currency : String
  customer_tax_exempt : Option String
  amount_paid : Int
  customer : String
  lines : List Line
  metadata : Option Metadata
deriving DecidableEq, Inhabited, Repr

/-- The body of an HTTP/API response; the code only ever reads `.id`. -/
structure RespData where
  id : JVal
deriving DecidableEq, Inhabited, Repr

/-- An axios/Stripe response as the code reads it (`response.data`). -/
structure Resp where
  data : RespData
deriving DecidableEq, Inhabited, Repr

/-- Payload of `POST /Contact` and `PUT /Contact/{id}`.  `vatNumber` and
`taxType` are doubly optional: the outer layer records whether
`Object.assign` added the field at all, the inner layer its (possibly
null) value. -/
structure ContactData where
  name : Option String
  categoryId : Int
  description : String
  exemptVat : Bool
  vatNumber : Option (Option String)
  taxType : Option (Option String)
deriving DecidableEq, Inhabited, Repr

/-- One mapped invoice position (`invoicePosSave` entry). -/
structure Item where
  quantity : Option Int
  price : Int
  name : Option String
  text : Option String
  discount : Option Int
  taxRate : Option Rat
  priceGross : Option Int
  priceTax : Option Int
  mapAll : Bool
  objectName : String
deriving DecidableEq, Inhabited, Repr

/-- The `invoice:` object of `POST /Invoice/Factory/saveInvoice`. -/
structure InvoicePayload where
  invoiceNumber : Option String
  contactId : JVal
  invoiceDate : Int
  deliveryDate : Int
  deliveryDateUntil : Int
  discount : Int
  status : Int
  contactPerson : Option String
  smallSettlement : Bool
  taxType : String
  currency : String
  invoiceType : String
  sendType : String
deriving DecidableEq, Inhabited, Repr

/-- Body of `PUT /Invoice/{id}/bookAmount`. -/
structure BookBody where
  amount : Int
  date : String
  type : String
  checkAccountId : String
deriving DecidableEq, Inhabited, Repr

/-- One external call, recorded in the order the code issues it. -/
inductive Call where
  | secretAccess (name : String)
  | stripeRetrieveCustomer (id : String)
  | stripeRetrieveTaxRate (id : String)
  | stripeUpdateCustomer (id : String) (sevdeskId : JVal)
  | stripeUpdateInvoice (id : String) (sevdeskId : JVal)
  | contactCreate (data : ContactData)
  | contactUpdate (pathId : String) (data : ContactData)
  | invoiceCreate (payload : InvoicePayload) (items : List Item)
  | invoiceCancel (pathId : String)
  | invoiceBook (pathId : String) (body : BookBody)
deriving DecidableEq, Inhabited, Repr

/-- Calls against the SevDesk (accounting) API, i.e. the `client.post` /
`client.put` requests. -/
def Call.isAccountingCall : Call → Bool
  | .contactCreate _ => true
  | .contactUpdate _ _ => true
  | .invoiceCreate _ _ => true
  | .invoiceCancel _ => true
  | .invoiceBook _ _ => true
  | _ => false

/-- Calls that write linkage metadata back onto a payment-platform
entity. -/
def Call.isMetadataWrite : Call → Bool
  | .stripeUpdateCustomer _ _ => true
  | .stripeUpdateInvoice _ _ => true
  | _ => false

/-- The environment: configuration values and the response every external
call would return. -/
structure Env where
  sevdeskApiKeySecret : String
  sevdeskCheckAccount : String
  today : String
  retrieveCustomer : String → Customer
  contactCreateResp : Resp
  contactUpdateResp : Resp
  customerUpdateResp : Resp
  invoiceCreateResp : Resp
  invoiceCancelResp : Resp
  invoiceBookResp : Resp

/-- `sevDeskClient()` — constructing the client fetches the API key from
the secret manager; the call it performs is what matters here. -/
def sevDeskClientCalls (env : Env) : List Call :=
  [Call.secretAccess env.sevdeskApiKeySecret]

/-- The contact payload built at the top of `createOrUpdateContact`. -/
def contactData (customer : Customer) : ContactData :=
  let base : ContactData :=
    { name := customer.name
      categoryId := 3
      description := customer.id
      exemptVat := customer.tax_exempt = some "exempt"
      vatNumber := none
      taxType := none }
  match customer.tax_ids with
  | none => base
  | some tids =>
    if tids.data.length ≠ 0 then
      let taxId := tids.data.headI
      { base with
        vatNumber := some (if taxId.type = "eu_vat" then some taxId.value else none)
        taxType := some (if taxId.type = "eu_vat" then some "eu" else none) }
    else base

/-- `createOrUpdateContact(customer, customerId?)`.  The id parameter is a
`JVal` because `onCustomerUpdated` forwards `customer.metadata.sevdesk_id`
unchecked; the source's `typeof customerId === "undefined"` test is the
`JVal.undef` match.  On the create path the returned promise is the result
of the `.then` chain, i.e. the `stripe.customers.update` write-back
response, not the `POST /Contact` response. -/
def createOrUpdateContact (env : Env) (customer : Customer) (customerId : JVal) :
    List Call × Resp :=
  let calls := sevDeskClientCalls env
  let data := contactData customer
  match customerId with
  | .undef =>
    let response := env.contactCreateResp
    (calls ++ [Call.contactCreate data,
               Call.stripeUpdateCustomer customer.id response.data.id],
     env.customerUpdateResp)
  | other =>
    (calls ++ [Call.contactUpdate other.interp data], env.contactUpdateResp)

/-- The guard `null !== customer.metadata && null !== customer.metadata.sevdesk_id`
in `onInvoiceFinalized`.  Note a missing key (`undef`) passes this test,
since in JavaScript `undefined !== null` holds under strict comparison. -/
def finalizedHasLink (customer : Customer) : Bool :=
  match customer.metadata with
  | none => false
  | some m => m.sevdesk_id ≠ JVal.null

/-- The position object returned by the map callback.  `taxRate` is
`none`: the `.then` callback of the fire-and-forget tax-rate lookup
cannot run before the synchronous map returns, so the local `taxRate`
variable is still its initial `null` when this object is built. -/
def mappedItem (line : Line) : Item :=
  { quantity := line.quantity
    price := line.amount
    name := line.description
    text := none
    discount := none
    taxRate := none
    priceGross := none
    priceTax := none
    mapAll := true
    objectName := "InvoicePos" }

/-- Mapping one line item.  A line with more than one tax amount throws;
a line with exactly one dispatches the asynchronous tax-rate lookup. -/
def mapLine (line : Line) : List Call × Except String Item :=
  let item : Item := mappedItem line
  match line.tax_amounts with
  | none => ([], .ok item)
  | some tas =>
    if tas.length = 0 then ([], .ok item)
    else if tas.length > 1 then
      ([], .error "Multiple tax rates per item are not supported.")
    else ([Call.stripeRetrieveTaxRate tas.headI.tax_rate], .ok item)

/-- `Array.from(invoice.lines.data).map(...)`: left to right, stopping at
the first line that throws, keeping the lookups already dispatched. -/
def mapItems : List Line → List Call × Except String (List Item)
  | [] => ([], .ok [])
  | l :: ls =>
    match mapLine l with
    | (cs, .error e) => (cs, .error e)
    | (cs, .ok item) =>
      let (cs2, rest) := mapItems ls
      (cs ++ cs2, rest.map (item :: ·))

/-- The `invoice:` object passed to `/Invoice/Factory/saveInvoice`. -/
def buildInvoicePayload (invoice : Invoice) (contactId : JVal) : InvoicePayload :=
  { invoiceNumber := invoice.number
    contactId := contactId
    invoiceDate := invoice.created
    deliveryDate := 0
    deliveryDateUntil := 0
    discount := 0
    status := 200
    contactPerson := none
    smallSettlement := false
    taxType :=
      if invoice.customer_tax_exempt = some "exempt" then "eu"
      else if invoice.customer_tax_exempt = some "reverse" then "noteu"
      else "default"
    currency := invoice.currency.toUpper
    invoiceType := "RE"
    sendType := "VM" }

/-- `onInvoiceFinalized(invoice)`. -/
def onInvoiceFinalized (env : Env) (invoice : Invoice) :
    List Call × Except String Resp :=
  let calls1 := sevDeskClientCalls env
  let customer := env.retrieveCustomer invoice.customer
  let calls2 := calls1 ++ [Call.stripeRetrieveCustomer invoice.customer]
  let contact :=
    if finalizedHasLink customer then
      (([] : List Call), (customer.metadata.getD default).sevdesk_id)
    else
      let (cs, resp) := createOrUpdateContact env customer JVal.undef
      (cs, resp.data.id)
  let contactId := contact.2
  let calls3 := calls2 ++ contact.1
  match mapItems invoice.lines with
  | (itemCalls, .error e) => (calls3 ++ itemCalls, .error e)
  | (itemCalls, .ok items) =>
    let payload := buildInvoicePayload invoice contactId
    let response := env.invoiceCreateResp
    let invoiceId := response.data.id
    (calls3 ++ itemCalls ++
       [Call.invoiceCreate payload items,
        Call.stripeUpdateInvoice invoice.id invoiceId],
     .ok response)

/-- The guard `null === invoice.metadata || null === invoice.metadata.sevdesk_id`
shared by the voided and paid handlers.  A missing key (`undef`) does NOT
satisfy it, since `undefined === null` is false. -/
def invoiceNoLink (invoice : Invoice) : Bool :=
  match invoice.metadata with
  | none => true
  | some m => m.sevdesk_id = JVal.null

/-- `onInvoiceVoided(invoice)`. -/
def onInvoiceVoided (env : Env) (invoice : Invoice) :
    List Call × Except String Resp :=
  if invoiceNoLink invoice then ([], .error "No SevDesk link found.")
  else
    let invoiceId := (invoice.metadata.getD default).sevdesk_id
    (sevDeskClientCalls env ++ [Call.invoiceCancel invoiceId.interp],
     .ok env.invoiceCancelResp)

/-- `onInvoicePaid(invoice)`. -/
def onInvoicePaid (env : Env) (invoice : Invoice) :
    List Call × Except String Resp :=
  if invoiceNoLink invoice then ([], .error "No SevDesk link found.")
  else
    let invoiceId := (invoice.metadata.getD default).sevdesk_id
    (sevDeskClientCalls env ++
       [Call.invoiceBook invoiceId.interp
          { amount := invoice.amount_paid
            date := env.today
            type := "N"
            checkAccountId := env.sevdeskCheckAccount }],
     .ok env.invoiceBookResp)

/-- `onCustomerUpdated(customer)`.  When the guard fails but the key is
absent, `customer.metadata.sevdesk_id` is `undefined` and is forwarded as
the second argument. -/
def onCustomerUpdated (env : Env) (customer : Customer) :
    List Call × Except String Resp :=
  let noLink : Bool :=
    match customer.metadata with
    | none => true
    | some m => m.sevdesk_id = JVal.null
  if noLink then
    let (cs, resp) := createOrUpdateContact env customer JVal.undef
    (cs, .ok resp)
  else
    let customerId := (customer.metadata.getD default).sevdesk_id
    let (cs, resp) := createOrUpdateContact env customer customerId
    (cs, .ok resp)

/-- The parsed event envelope, a discriminated union over the event types
the switch statement distinguishes.  `other` covers every type with no
case in the switch. -/
inductive Event where
  | invoiceFinalized (i : Invoice)
  | invoicePaid (i : Invoice)
  | invoiceVoided (i : Invoice)
  | customerCreated (c : Customer)
  | customerUpdated (c : Customer)
  | payoutPaid
  | other (type : String)
deriving Inhabited

/-- Whether the event's type is one of the `case` labels of the switch. -/
def Event.caseMatched : Event → Bool
  | .other _ => false
  | _ => true

/-- Outcome of the switch statement: a handler was dispatched and settled,
the empty `payout.paid` branch ran, or no case matched. -/
inductive Dispatch where
  | handled (outcome : List Call × Except String Resp)
  | noop
  | unmatched
deriving Inhabited

/-- The switch statement's dispatch. -/
def dispatchEvent (env : Env) : Event → Dispatch
  | .invoiceFinalized i => .handled (onInvoiceFinalized env i)
  | .invoicePaid i => .handled (onInvoicePaid env i)
  | .invoiceVoided i => .handled (onInvoiceVoided env i)
  | .customerCreated c => .handled (onCustomerUpdated env c)
  | .customerUpdated c => .handled (onCustomerUpdated env c)
  | .payoutPaid => .noop
  | .other _ => .unmatched

/-- A response body: `{received:true}`, `{error:true, message}`, or
the plain-text send of `'Event type not supported'`. -/
inductive RespBody where
  | received
  | errorMsg (message : String)
  | textUnsupported
deriving DecidableEq, Inhabited, Repr

/-- An HTTP response as the function sends (or attempts to send) it. -/
structure HttpResp where
  status : Nat
  body : RespBody
deriving DecidableEq, Inhabited, Repr

/-- What one invocation of the entry point does: the responses it sends in
temporal order (synchronous sends first, then the `.then`/`.catch`
response once the handler settles), the handler's external calls, whether
a handler ran, and whether the function body threw synchronously. -/
structure WebhookResult where
  responses : List HttpResp
  handlerCalls : List Call
  handlerRan : Bool
  threw : Bool
deriving Inhabited

/-- `webhook(req, res)`.  The request is given as the outcome of
`stripe.webhooks.constructEvent`: `.error msg` when signature
verification throws, `.ok event` otherwise.  After the switch the source
unconditionally executes `res.status(400).send('Event type not supported')`
followed by `throw new Error(...)`; a matched branch only schedules its
`.then`/`.catch` response, which is sent afterwards (via `handleError`
with status 500 when the handler rejected). -/
def webhook (env : Env) (req : Except String Event) : WebhookResult :=
  match req with
  | .error msg =>
    { responses := [⟨400, .errorMsg msg⟩]
      handlerCalls := []
      handlerRan := false
      threw := false }
  | .ok event =>
    match dispatchEvent env event with
    | .handled (calls, outcome) =>
      let asyncResp : HttpResp :=
        match outcome with
        | .ok _ => ⟨200, .received⟩
        | .error e => ⟨500, .errorMsg e⟩
      { responses := [⟨400, .textUnsupported⟩, asyncResp]
        handlerCalls := calls
        handlerRan := true
        threw := true }
    | .noop =>
      { responses := [⟨400, .textUnsupported⟩]
        handlerCalls := []
        handlerRan := false
        threw := true }
    | .unmatched =>
      { responses := [⟨400, .textUnsupported⟩]
        handlerCalls := []
        handlerRan := false
        threw := true }

/-- The customer's stored linkage id, when one exists: the spec's "has a
linkage id" means a string value under the `sevdesk_id` metadata key. -/
def Customer.linkId (c : Customer) : Option String :=
  match c.metadata with
  | some ⟨JVal.str s⟩ => some s
  | _ => none

/-- The invoice's stored linkage id, when one exists. -/
def Invoice.linkId (i : Invoice) : Option String :=
  match i.metadata with
  | some ⟨JVal.str s⟩ => some s
  | _ => none

/-! ### Concrete fixtures used by the closed theorems -/

def envOf (c : Customer) : Env :=
  { sevdeskApiKeySecret := "projects/p/secrets/sevdesk-key/versions/1"
    sevdeskCheckAccount := "ca_9"
    today := "12.10.2026"
    retrieveCustomer := fun _ => c
    contactCreateResp := ⟨⟨JVal.str "301"⟩⟩
    contactUpdateResp := ⟨⟨JVal.str "302"⟩⟩
    customerUpdateResp := ⟨⟨JVal.str "cus_A"⟩⟩
    invoiceCreateResp := ⟨⟨JVal.str "401"⟩⟩
    invoiceCancelResp := ⟨⟨JVal.str "402"⟩⟩
    invoiceBookResp := ⟨⟨JVal.str "403"⟩⟩ }

/-- A customer whose metadata object exists but carries no `sevdesk_id`
key (the property reads as `undefined`). -/
def cusNoKey : Customer :=
  { id := "cus_A", name := some "Ada GmbH", tax_exempt := some "none"
    tax_ids := none, metadata := some ⟨JVal.undef⟩ }

/-- A customer with a stored linkage id. -/
def cusLinked : Customer :=
  { id := "cus_B", name := some "Bob AG", tax_exempt := some "none"
    tax_ids := none, metadata := some ⟨JVal.str "77"⟩ }

/-- A customer whose metadata field is null. -/
def cusNullMeta : Customer :=
  { id := "cus_C", name := some "Cee KG", tax_exempt := some "none"
    tax_ids := none, metadata := none }

/-- A line item without tax amounts. -/
def lineSimple : Line :=
  { quantity := some 1, amount := 500, description := some "widget"
    tax_amounts := none }

/-- A line item with exactly one tax amount. -/
def lineOneTax : Line :=
  { quantity := some 2, amount := 700, description := some "gadget"
    tax_amounts := some [⟨"txr_1"⟩] }

/-- A line item with two tax amounts. -/
def lineTwoTax : Line :=
  { quantity := some 1, amount := 900, description := some "combo"
    tax_amounts := some [⟨"txr_1"⟩, ⟨"txr_2"⟩] }

def invOf (customer : String) (lines : List Line) (md : Option Metadata) : Invoice :=
  { id := "in_1", number := some "F-0001", created := 1700000000
    currency := "eur", customer_tax_exempt := some "none"
    amount_paid := 1200, customer := customer, lines := lines, metadata := md }

/-! ### Helper lemmas -/

theorem mapLine_error_msg (l : Line) (e : String) (h : (mapLine l).2 = .error e) :
    e = "Multiple tax rates per item are not supported." := by
  unfold mapLine at h
  rcases l with ⟨q, a, d, tas⟩
  cases tas with
  | none => simp at h
  | some tas =>
    simp only at h
    split at h
    · simp at h
    · split at h
      · simp at h; exact h.symm
      · simp at h

theorem mapLine_calls_shape (l : Line) (c : Call) (h : c ∈ (mapLine l).1) :
    ∃ r, c = Call.stripeRetrieveTaxRate r := by
  unfold mapLine at h
  rcases l with ⟨q, a, d, tas⟩
  cases tas with
  | none => simp at h
  | some tas =>
    simp only at h
    split at h
    · simp at h
    · split at h
      · simp at h
      · simp at h; exact ⟨_, h⟩

theorem mapItems_calls_shape (ls : List Line) (c : Call) (h : c ∈ (mapItems ls).1) :
    ∃ r, c = Call.stripeRetrieveTaxRate r := by
  induction ls with
  | nil => simp [mapItems] at h
  | cons l ls ih =>
    unfold mapItems at h
    rcases hml : mapLine l with ⟨cs, res⟩
    cases res with
    | error e =>
      rw [hml] at h
      simp only at h
      exact mapLine_calls_shape l c (by rw [hml]; exact h)
    | ok item =>
      rw [hml] at h
      simp only [List.mem_append] at h
      cases h with
      | inl h => exact mapLine_calls_shape l c (by rw [hml]; exact h)
      | inr h => exact ih h

theorem mapLine_two_tax (l : Line) (tas : List TaxAmount)
    (h1 : l.tax_amounts = some tas) (h2 : tas.length > 1) :
    (mapLine l).2 = .error "Multiple tax rates per item are not supported." := by
  rcases l with ⟨q, a, d, tax⟩
  simp only at h1
  subst h1
  simp only [mapLine]
  rw [if_neg (by omega : ¬tas.length = 0), if_pos h2]

theorem mapItems_error_of_bad (ls : List Line)
    (h : ∃ l ∈ ls, ∃ tas, l.tax_amounts = some tas ∧ tas.length > 1) :
    (mapItems ls).2 = .error "Multiple tax rates per item are not supported." := by
  induction ls with
  | nil => simp at h
  | cons l ls ih =>
    rcases h with ⟨l0, hmem, tas, htas, hlen⟩
    unfold mapItems
    rcases hml : mapLine l with ⟨cs, res⟩
    cases res with
    | error e =>
      simp only
      rw [mapLine_error_msg l e (by rw [hml])]
    | ok item =>
      simp only
      rcases List.mem_cons.mp hmem with h0 | h0
      · exfalso
        subst h0
        have h3 := mapLine_two_tax l0 tas htas hlen
        rw [hml] at h3
        simp at h3
      · have h4 := ih ⟨l0, h0, tas, htas, hlen⟩
        rcases hmi : mapItems ls with ⟨cs2, rest⟩
        rw [hmi] at h4
        simp only at h4
        subst h4
        rfl

theorem createOrUpdateContact_no_invoiceCreate (env : Env) (cust : Customer)
    (cid : JVal) (p : InvoicePayload) (its : List Item) :
    Call.invoiceCreate p its ∉ (createOrUpdateContact env cust cid).1 := by
  unfold createOrUpdateContact sevDeskClientCalls
  cases cid <;> simp

theorem createOrUpdateContact_create_resp (env : Env) (cust : Customer) :
    (createOrUpdateContact env cust JVal.undef).2 = env.customerUpdateResp := rfl

/-- The only invoice-creation call `onInvoiceFinalized` can put in its
trace carries the payload built from the invoice and the contact id the
handler resolved: the (possibly undefined or null) metadata value when the
`null !==` guard passed, otherwise the id read off the customer write-back
response. -/
theorem onInvoiceFinalized_invoiceCreate_shape (env : Env) (inv : Invoice)
    (p : InvoicePayload) (its : List Item)
    (h : Call.invoiceCreate p its ∈ (onInvoiceFinalized env inv).1) :
    p = buildInvoicePayload inv
      (if finalizedHasLink (env.retrieveCustomer inv.customer)
       then ((env.retrieveCustomer inv.customer).metadata.getD default).sevdesk_id
       else env.customerUpdateResp.data.id) := by
  simp only [onInvoiceFinalized, sevDeskClientCalls] at h
  cases hl : finalizedHasLink (env.retrieveCustomer inv.customer) with
  | true =>
    simp only [hl, if_true] at h ⊢
    rcases hmi : mapItems inv.lines with ⟨itemCalls, res⟩
    rw [hmi] at h
    cases res with
    | error e =>
      simp at h
      rcases mapItems_calls_shape inv.lines _ (by rw [hmi]; exact h) with ⟨r, hr⟩
      simp at hr
    | ok items =>
      simp at h
      rcases h with h | h
      · rcases mapItems_calls_shape inv.lines _ (by rw [hmi]; exact h) with ⟨r, hr⟩
        simp at hr
      · exact h.1
  | false =>
    simp only [hl, if_false] at h ⊢
    rcases hcu : createOrUpdateContact env (env.retrieveCustomer inv.customer) JVal.undef
      with ⟨ccs, cresp⟩
    rw [hcu] at h
    have hresp : cresp = env.customerUpdateResp := by
      have h2 := createOrUpdateContact_create_resp env (env.retrieveCustomer inv.customer)
      rw [hcu] at h2
      exact h2
    subst hresp
    have hccs : Call.invoiceCreate p its ∉ ccs := by
      have h3 := createOrUpdateContact_no_invoiceCreate env
        (env.retrieveCustomer inv.customer) JVal.undef p its
      rw [hcu] at h3
      exact h3
    rcases hmi : mapItems inv.lines with ⟨itemCalls, res⟩
    rw [hmi] at h
    cases res with
    | error e =>
      simp at h
      rcases h with h | h
      · exact absurd h hccs
      · rcases mapItems_calls_shape inv.lines _ (by rw [hmi]; exact h) with ⟨r, hr⟩
        simp at hr
    | ok items =>
      simp at h
      rcases h with h | h | h
      · exact absurd h hccs
      · rcases mapItems_calls_shape inv.lines _ (by rw [hmi]; exact h) with ⟨r, hr⟩
        simp at hr
      · exact h.1

theorem createOrUpdateContact_undef (env : Env) (cust : Customer) :
    createOrUpdateContact env cust JVal.undef =
      ([Call.secretAccess env.sevdeskApiKeySecret,
        Call.contactCreate (contactData cust),
        Call.stripeUpdateCustomer cust.id env.contactCreateResp.data.id],
       env.customerUpdateResp) := rfl

theorem createOrUpdateContact_str (env : Env) (cust : Customer) (s : String) :
    createOrUpdateContact env cust (JVal.str s) =
      ([Call.secretAccess env.sevdeskApiKeySecret,
        Call.contactUpdate s (contactData cust)],
       env.contactUpdateResp) := rfl

/-- When the item map throws, the handler rejects with the same error and
no invoice-creation call reaches the trace. -/
theorem onInvoiceFinalized_mapError (env : Env) (inv : Invoice) (e : String)
    (he : (mapItems inv.lines).2 = .error e) :
    (onInvoiceFinalized env inv).2 = .error e ∧
      ∀ p its, Call.invoiceCreate p its ∉ (onInvoiceFinalized env inv).1 := by
  constructor
  · simp only [onInvoiceFinalized, sevDeskClientCalls]
    rcases hmi : mapItems inv.lines with ⟨itemCalls, res⟩
    rw [hmi] at he
    simp only at he
    subst he
    simp only
  · intro p its h
    simp only [onInvoiceFinalized, sevDeskClientCalls] at h
    rcases hmi : mapItems inv.lines with ⟨itemCalls, res⟩
    rw [hmi] at he
    simp only at he
    subst he
    rw [hmi] at h
    cases hl : finalizedHasLink (env.retrieveCustomer inv.customer) with
    | true =>
      simp only [hl, if_true] at h
      simp at h
      rcases mapItems_calls_shape inv.lines _ (by rw [hmi]; exact h) with ⟨r, hr⟩
      simp at hr
    | false =>
      simp only [hl, if_false] at h
      rcases hcu : createOrUpdateContact env (env.retrieveCustomer inv.customer) JVal.undef
        with ⟨ccs, cresp⟩
      rw [hcu] at h
      have hccs : Call.invoiceCreate p its ∉ ccs := by
        have h3 := createOrUpdateContact_no_invoiceCreate env
          (env.retrieveCustomer inv.customer) JVal.undef p its
        rw [hcu] at h3
        exact h3
      simp at h
      rcases h with h | h
      · exact absurd h hccs
      · rcases mapItems_calls_shape inv.lines _ (by rw [hmi]; exact h) with ⟨r, hr⟩
        simp at hr

/-- Is this call the contact-creation request `POST /Contact`? -/
def Call.isContactCreate : Call → Bool
  | .contactCreate _ => true
  | _ => false

/-! ### Claims -/

/-- C1: the claim says the entry point responds with the success
acknowledgment only after the handler resolves and reaches the
'unsupported event' response and error path only when no case matched.
The code contradicts the last part: after dispatching a matched
`invoice.finalized` event whose handler resolves, it still sends the
HTTP 400 'Event type not supported' response (before the asynchronous
200 acknowledgment) and throws. -/
theorem C1_unsupported_response_despite_match :
    (webhook (envOf cusLinked)
        (.ok (.invoiceFinalized (invOf "cus_B" [lineSimple] none)))).handlerRan = true ∧
    (webhook (envOf cusLinked)
        (.ok (.invoiceFinalized (invOf "cus_B" [lineSimple] none)))).responses =
      [⟨400, .textUnsupported⟩, ⟨200, .received⟩] ∧
    (webhook (envOf cusLinked)
        (.ok (.invoiceFinalized (invOf "cus_B" [lineSimple] none)))).threw = true :=
  ⟨rfl, rfl, rfl⟩

/-- C2: for a customer whose metadata object exists but has no
`sevdesk_id` key, the claim requires one contact-creation call whose new
id becomes the contact reference.  The code's `null !==` guard treats the
missing key (`undefined`) as an existing linkage: no contact-creation
call is made and the invoice-creation payload carries
`contact.id = undefined`. -/
theorem C2_missing_key_treated_as_linked :
    (onInvoiceFinalized (envOf cusNoKey) (invOf "cus_A" [lineSimple] none)).1.all
        (fun c => !c.isContactCreate) = true ∧
    Call.invoiceCreate
        (buildInvoicePayload (invOf "cus_A" [lineSimple] none) JVal.undef)
        [mappedItem lineSimple] ∈
      (onInvoiceFinalized (envOf cusNoKey) (invOf "cus_A" [lineSimple] none)).1 :=
  ⟨rfl, List.Mem.tail _ (List.Mem.tail _ (List.Mem.head _))⟩

/-- C3: for an invoice whose metadata object exists but has no
`sevdesk_id` key, the claim requires both handlers to fail with
'No SevDesk link' and make zero accounting calls.  The `null ===` guard
does not catch the missing key (`undefined`), so both handlers proceed
and issue an accounting call against the path id `undefined`. -/
theorem C3_missing_key_not_rejected :
    onInvoicePaid (envOf cusLinked) (invOf "cus_B" [] (some ⟨JVal.undef⟩)) =
      ([Call.secretAccess "projects/p/secrets/sevdesk-key/versions/1",
        Call.invoiceBook "undefined"
          { amount := 1200, date := "12.10.2026", type := "N", checkAccountId := "ca_9" }],
       .ok ⟨⟨JVal.str "403"⟩⟩) ∧
    onInvoiceVoided (envOf cusLinked) (invOf "cus_B" [] (some ⟨JVal.undef⟩)) =
      ([Call.secretAccess "projects/p/secrets/sevdesk-key/versions/1",
        Call.invoiceCancel "undefined"],
       .ok ⟨⟨JVal.str "402"⟩⟩) :=
  ⟨rfl, rfl⟩

/-- C4 counterexample: an invoice with a two-tax-rate line item whose
customer has null metadata.  The handler does fail with the validation
error, but only after the contact-creation call already went out, so an
accounting-side record was created before the failure. -/
theorem C4_counterexample_contact_created_before_validation :
    (onInvoiceFinalized (envOf cusNullMeta) (invOf "cus_C" [lineTwoTax] none)).2 =
      .error "Multiple tax rates per item are not supported." ∧
    Call.contactCreate (contactData cusNullMeta) ∈
      (onInvoiceFinalized (envOf cusNullMeta) (invOf "cus_C" [lineTwoTax] none)).1 :=
  ⟨rfl, List.Mem.tail _ (List.Mem.tail _ (List.Mem.tail _ (List.Mem.head _)))⟩

/-- C4 (amended): a finalized invoice containing a line item with two or
more tax rates makes the handler fail with the validation error, and no
invoice-creation call is ever made; the contact-creation call for a
customer without linkage, however, happens before the validation check. -/
theorem C4_multi_tax_rate_fails_without_invoice_creation (env : Env) (inv : Invoice)
    (h : ∃ l ∈ inv.lines, ∃ tas, l.tax_amounts = some tas ∧ tas.length > 1) :
    (onInvoiceFinalized env inv).2 =
      .error "Multiple tax rates per item are not supported." ∧
    ∀ p its, Call.invoiceCreate p its ∉ (onInvoiceFinalized env inv).1 :=
  onInvoiceFinalized_mapError env inv _ (mapItems_error_of_bad inv.lines h)

theorem C4_multi_tax_rate_fails_without_invoice_creation_witness :
    (∃ l ∈ (invOf "cus_C" [lineTwoTax] none).lines,
      ∃ tas, l.tax_amounts = some tas ∧ tas.length > 1) ∧
    (onInvoiceFinalized (envOf cusNullMeta) (invOf "cus_C" [lineTwoTax] none)).2 =
      .error "Multiple tax rates per item are not supported." :=
  ⟨⟨lineTwoTax, by decide, [⟨"txr_1"⟩, ⟨"txr_2"⟩], rfl, by decide⟩,
   (C4_multi_tax_rate_fails_without_invoice_creation (envOf cusNullMeta)
      (invOf "cus_C" [lineTwoTax] none)
      ⟨lineTwoTax, by decide, [⟨"txr_1"⟩, ⟨"txr_2"⟩], rfl, by decide⟩).1⟩

/-- C5: a customer event without a stored linkage id results in exactly
one contact-creation call followed by exactly one metadata write-back
carrying the id from the contact-creation response; with a stored linkage
id, the existing contact is updated in place with no write-back. -/
theorem C5_customer_update_dispatch (env : Env) (c : Customer) :
    (c.linkId = none →
      onCustomerUpdated env c =
        ([Call.secretAccess env.sevdeskApiKeySecret,
          Call.contactCreate (contactData c),
          Call.stripeUpdateCustomer c.id env.contactCreateResp.data.id],
         .ok env.customerUpdateResp)) ∧
    (∀ s, c.linkId = some s →
      onCustomerUpdated env c =
        ([Call.secretAccess env.sevdeskApiKeySecret,
          Call.contactUpdate s (contactData c)],
         .ok env.contactUpdateResp)) := by
  constructor
  · intro hnone
    rcases hm : c.metadata with _ | v
    · simp [onCustomerUpdated, hm, createOrUpdateContact_undef]
    · rcases v with ⟨v⟩
      cases v with
      | undef =>
        simp [onCustomerUpdated, hm, createOrUpdateContact_undef]
      | null =>
        simp [onCustomerUpdated, hm, createOrUpdateContact_undef]
      | str s =>
        rw [Customer.linkId, hm] at hnone
        simp at hnone
  · intro s hs
    rcases hm : c.metadata with _ | v
    · rw [Customer.linkId, hm] at hs
      simp at hs
    · rcases v with ⟨v⟩
      cases v with
      | undef => rw [Customer.linkId, hm] at hs; simp at hs
      | null => rw [Customer.linkId, hm] at hs; simp at hs
      | str s0 =>
        have hss : s0 = s := by
          rw [Customer.linkId, hm] at hs
          simpa using hs
        subst hss
        simp [onCustomerUpdated, hm, createOrUpdateContact_str]

theorem C5_customer_update_dispatch_witness :
    Customer.linkId cusNoKey = none ∧
    onCustomerUpdated (envOf cusNoKey) cusNoKey =
      ([Call.secretAccess "projects/p/secrets/sevdesk-key/versions/1",
        Call.contactCreate (contactData cusNoKey),
        Call.stripeUpdateCustomer "cus_A" (JVal.str "301")],
       .ok ⟨⟨JVal.str "cus_A"⟩⟩) :=
  ⟨rfl, (C5_customer_update_dispatch (envOf cusNoKey) cusNoKey).1 rfl⟩

/-- C6: a finalized invoice whose line item carries exactly one tax rate
still submits the invoice-creation request with the item's `taxRate`
null, while the tax-rate lookup was dispatched but not awaited. -/
theorem C6_tax_rate_omitted_despite_lookup :
    onInvoiceFinalized (envOf cusLinked) (invOf "cus_B" [lineOneTax] none) =
      ([Call.secretAccess "projects/p/secrets/sevdesk-key/versions/1",
        Call.stripeRetrieveCustomer "cus_B",
        Call.stripeRetrieveTaxRate "txr_1",
        Call.invoiceCreate
          (buildInvoicePayload (invOf "cus_B" [lineOneTax] none) (JVal.str "77"))
          [mappedItem lineOneTax],
        Call.stripeUpdateInvoice "in_1" (JVal.str "401")],
       .ok ⟨⟨JVal.str "401"⟩⟩) ∧
    (mappedItem lineOneTax).taxRate = none :=
  ⟨rfl, rfl⟩

/-- C7: every invoice-creation payload the finalize handler submits
carries `taxType` 'eu' for `customer_tax_exempt = exempt`, 'noteu' for
'reverse', 'default' otherwise, and the invoice's currency upper-cased. -/
theorem C7_taxType_and_currency (env : Env) (inv : Invoice)
    (p : InvoicePayload) (its : List Item)
    (h : Call.invoiceCreate p its ∈ (onInvoiceFinalized env inv).1) :
    p.taxType =
      (if inv.customer_tax_exempt = some "exempt" then "eu"
       else if inv.customer_tax_exempt = some "reverse" then "noteu"
       else "default") ∧
    p.currency = inv.currency.toUpper := by
  have hp := onInvoiceFinalized_invoiceCreate_shape env inv p its h
  subst hp
  exact ⟨rfl, rfl⟩

theorem C7_taxType_and_currency_witness :
    (buildInvoicePayload (invOf "cus_B" [lineSimple] none) (JVal.str "77")).taxType =
      "default" ∧
    (buildInvoicePayload (invOf "cus_B" [lineSimple] none) (JVal.str "77")).currency =
      "eur".toUpper := by
  have h := C7_taxType_and_currency (envOf cusLinked) (invOf "cus_B" [lineSimple] none)
    (buildInvoicePayload (invOf "cus_B" [lineSimple] none) (JVal.str "77"))
    [mappedItem lineSimple]
    (List.Mem.tail _ (List.Mem.tail _ (List.Mem.head _)))
  exact ⟨h.1.trans (by decide), h.2⟩

/-- C8: for an invoice with a stored linkage id, the paid handler issues
exactly one booking call against that id, with amount equal to the
invoice's `amount_paid`, the configured check-account identifier, and the
fixed booking-type code 'N'. -/
theorem C8_booking_call (env : Env) (inv : Invoice) (s : String)
    (h : inv.linkId = some s) :
    onInvoicePaid env inv =
      ([Call.secretAccess env.sevdeskApiKeySecret,
        Call.invoiceBook s
          { amount := inv.amount_paid, date := env.today, type := "N",
            checkAccountId := env.sevdeskCheckAccount }],
       .ok env.invoiceBookResp) := by
  rcases hm : inv.metadata with _ | v
  · rw [Invoice.linkId, hm] at h
    simp at h
  · rcases v with ⟨v⟩
    cases v with
    | undef => rw [Invoice.linkId, hm] at h; simp at h
    | null => rw [Invoice.linkId, hm] at h; simp at h
    | str s0 =>
      have hss : s0 = s := by
        rw [Invoice.linkId, hm] at h
        simpa using h
      subst hss
      simp only [onInvoicePaid, invoiceNoLink, hm, sevDeskClientCalls]
      simp [JVal.interp]

theorem C8_booking_call_witness :
    Invoice.linkId (invOf "cus_B" [] (some ⟨JVal.str "55"⟩)) = some "55" ∧
    onInvoicePaid (envOf cusLinked) (invOf "cus_B" [] (some ⟨JVal.str "55"⟩)) =
      ([Call.secretAccess "projects/p/secrets/sevdesk-key/versions/1",
        Call.invoiceBook "55"
          { amount := 1200, date := "12.10.2026", type := "N", checkAccountId := "ca_9" }],
       .ok ⟨⟨JVal.str "403"⟩⟩) :=
  ⟨rfl, C8_booking_call (envOf cusLinked) (invOf "cus_B" [] (some ⟨JVal.str "55"⟩)) "55" rfl⟩

/-- C9: a request failing signature verification is answered with
HTTP 400 and `{error:true, message}`; no handler runs, no external call
is made, and in particular no linkage metadata is written. -/
theorem C9_signature_failure_is_terminal (env : Env) (msg : String) :
    (webhook env (.error msg)).responses = [⟨400, .errorMsg msg⟩] ∧
    (webhook env (.error msg)).handlerRan = false ∧
    (webhook env (.error msg)).handlerCalls = [] ∧
    (webhook env (.error msg)).handlerCalls.filter Call.isMetadataWrite = [] :=
  ⟨rfl, rfl, rfl, rfl⟩

/-- C10: on the create path (`customerId` undefined) the promise returned
by `createOrUpdateContact` resolves to the `stripe.customers.update`
write-back response, so the id the finalize handler embeds as the contact
reference is `contact.data.id` of that write-back response, not of the
`POST /Contact` response. -/
theorem C10_create_path_resolves_to_writeback (env : Env) (cust : Customer)
    (inv : Invoice) (p : InvoicePayload) (its : List Item)
    (hlink : finalizedHasLink (env.retrieveCustomer inv.customer) = false)
    (h : Call.invoiceCreate p its ∈ (onInvoiceFinalized env inv).1) :
    (createOrUpdateContact env cust JVal.undef).2 = env.customerUpdateResp ∧
    p.contactId = env.customerUpdateResp.data.id := by
  refine ⟨rfl, ?_⟩
  have hp := onInvoiceFinalized_invoiceCreate_shape env inv p its h
  rw [hlink] at hp
  simp only [Bool.false_eq_true, if_false] at hp
  subst hp
  rfl

theorem C10_create_path_resolves_to_writeback_witness :
    finalizedHasLink ((envOf cusNullMeta).retrieveCustomer "cus_C") = false ∧
    Call.invoiceCreate
        (buildInvoicePayload (invOf "cus_C" [lineSimple] none) (JVal.str "cus_A"))
        [mappedItem lineSimple] ∈
      (onInvoiceFinalized (envOf cusNullMeta) (invOf "cus_C" [lineSimple] none)).1 ∧
    (buildInvoicePayload (invOf "cus_C" [lineSimple] none) (JVal.str "cus_A")).contactId =
      (envOf cusNullMeta).customerUpdateResp.data.id :=
  ⟨rfl,
   List.Mem.tail _ (List.Mem.tail _ (List.Mem.tail _ (List.Mem.tail _
     (List.Mem.tail _ (List.Mem.head _))))),
   (C10_create_path_resolves_to_writeback (envOf cusNullMeta) cusNullMeta
      (invOf "cus_C" [lineSimple] none)
      (buildInvoicePayload (invOf "cus_C" [lineSimple] none) (JVal.str "cus_A"))
      [mappedItem lineSimple] rfl
      (List.Mem.tail _ (List.Mem.tail _ (List.Mem.tail _ (List.Mem.tail _
        (List.Mem.tail _ (List.Mem.head _))))))).2⟩

end Stripe2SevDesk
